import Mathlib

/-!
A verification development for a small instrumented HTTP client
(`api_client.py` + `config.py`): a base `APIClient` holding a base URL and a
mutable default-header mapping, generic verb methods that build one HTTP
request per call, wall-clock timing attached to successful responses, and two
derived per-service clients (`JSONPlaceholderClient`, `ReqResClient`) whose
named operations are one-line delegations.

The embedding is shallow: the client is a record, header mutation is explicit
state passing, the transport (the `requests` library) is an oracle supplying
one outcome per send attempt, and wall-clock readings are rational parameters.
-/

/-! ## JSON values and Python-style `json.dumps` serialization -/

/-- A JSON value, as produced by Python dict/list/str/int/bool/None literals.
The repository's request bodies are objects of strings and ints. -/
inductive Json where
  | null
  | bool (b : Bool)
  | int (n : Int)
  | str (s : String)
  | arr (elems : List Json)
  | obj (fields : List (String × Json))

/-- Hex digit (lowercase), as used by Python json \uXXXX escapes. -/
def hexDigit (n : Nat) : Char :=
  if n < 10 then Char.ofNat (48 + n) else Char.ofNat (87 + n)

/-- Four-digit lowercase hex, as in Python json \uXXXX escapes. -/
def hex4 (n : Nat) : String :=
  String.mk [hexDigit (n / 4096 % 16), hexDigit (n / 256 % 16),
             hexDigit (n / 16 % 16), hexDigit (n % 16)]

/-- Escape one character the way Python `json.dumps` (default
`ensure_ascii=True`) does inside a JSON string literal. -/
def escapeChar (c : Char) : String :=
  if c = '"' then "\\\""
  else if c = '\\' then "\\\\"
  else if c = '\n' then "\\n"
  else if c = '\t' then "\\t"
  else if c = '\r' then "\\r"
  else if c.toNat = 8 then "\\b"
  else if c.toNat = 12 then "\\f"
  else if c.toNat < 32 then "\\u" ++ hex4 c.toNat
  else if c.toNat < 127 then String.singleton c
  else if c.toNat < 65536 then "\\u" ++ hex4 c.toNat
  else
    "\\u" ++ hex4 (55296 + (c.toNat - 65536) / 1024) ++
    "\\u" ++ hex4 (56320 + (c.toNat - 65536) % 1024)

/-- A JSON string literal as Python `json.dumps` renders it. -/
def dumpString (s : String) : String :=
  "\"" ++ String.join (s.data.map escapeChar) ++ "\""

mutual

/-- Python `json.dumps` with its default separators `', '` and `': '` (also
what the `requests` library uses to serialize a `json=` body). -/
def Json.dumps : Json → String
  | .null => "null"
  | .bool true => "true"
  | .bool false => "false"
  | .int n => toString n
  | .str s => dumpString s
  | .arr elems => "[" ++ dumpsElems elems ++ "]"
  | .obj fields => "\x7b" ++ dumpsFields fields ++ "\x7d"

/-- Comma-separated rendering of JSON array elements. -/
def dumpsElems : List Json → String
  | [] => ""
  | [x] => Json.dumps x
  | x :: y :: rest => Json.dumps x ++ ", " ++ dumpsElems (y :: rest)

/-- Comma-separated rendering of JSON object entries (`"key": value`). -/
def dumpsFields : List (String × Json) → String
  | [] => ""
  | [(k, v)] => dumpString k ++ ": " ++ Json.dumps v
  | (k, v) :: y :: rest => dumpString k ++ ": " ++ Json.dumps v ++ ", " ++ dumpsFields (y :: rest)

end

/-- Python truthiness of a JSON value (`if data:`): empty dict/list/str, 0,
False and None are falsy. -/
def Json.truthy : Json → Bool
  | .null => false
  | .bool b => b
  | .int n => decide (n ≠ 0)
  | .str s => decide (s ≠ "")
  | .arr elems => !elems.isEmpty
  | .obj fields => !fields.isEmpty

/-! ## Header mappings (Python dict semantics, insertion-ordered) -/

/-- An insertion-ordered string-to-string mapping, as Python dict /
`requests` session headers. -/
def Headers := List (String × String)
deriving DecidableEq, Repr

/-- Lookup of a key in a header mapping. -/
def lookupH : List (String × String) → String → Option String
  | [], _ => none
  | (k, v) :: rest, key => if k = key then some v else lookupH rest key

/-- Python `key in dict`. -/
def containsKey (hs : List (String × String)) (key : String) : Bool :=
  (lookupH hs key).isSome

/-- Python `dict.update({k: v})` / `dict[k] = v`: replace the value in place
when the key is present, append the pair otherwise. -/
def dictUpdate : List (String × String) → String → String → List (String × String)
  | [], k, v => [(k, v)]
  | (k0, v0) :: rest, k, v =>
      if k0 = k then (k0, v) :: rest else (k0, v0) :: dictUpdate rest k v

/-- Python `del dict[k]`: drop the entry with that key. -/
def dictDelete : List (String × String) → String → List (String × String)
  | [], _ => []
  | (k0, v0) :: rest, k =>
      if k0 = k then dictDelete rest k else (k0, v0) :: dictDelete rest k

/-! ## Configuration store (`config.py`) -/

namespace Config

/-- `Config.JSONPLACEHOLDER_BASE_URL`. -/
def JSONPLACEHOLDER_BASE_URL : String := "https://jsonplaceholder.typicode.com"

/-- `Config.REQRES_BASE_URL`. -/
def REQRES_BASE_URL : String := "https://reqres.in/api"

/-- `Config.TEST_USER_DATA`. -/
def TEST_USER_DATA : Json :=
  Json.obj [("name", Json.str "John Doe"), ("job", Json.str "QA Automation Engineer")]

/-- `Config.TEST_POST_DATA`. -/
def TEST_POST_DATA : Json :=
  Json.obj [("title", Json.str "Test Post Title"),
            ("body", Json.str "This is a test post body for API testing"),
            ("userId", Json.int 1)]

/-- `Config.RESPONSE_TIMEOUT` (seconds), the per-request timeout. -/
def RESPONSE_TIMEOUT : ℚ := 5

/-- `Config.MAX_RESPONSE_TIME` (milliseconds). -/
def MAX_RESPONSE_TIME : ℚ := 3000

end Config

/-! ## Client state and request preparation -/

/-- The state of an `APIClient` instance: the bound base URL and the
session's default header mapping (the repository-managed entries; the
session is otherwise opaque transport state). -/
structure APIClient where
  base_url : String
  headers : List (String × String)
deriving DecidableEq, Repr

/-- The keyword arguments the repository passes to `session.request`:
query parameters (`params=`), a pre-serialized string body (`data=`), or a
structured JSON body (`json=`). -/
structure Kwargs where
  params : Option (List (String × Int))
  data : Option String
  json : Option Json

/-- No keyword arguments. -/
def Kwargs.empty : Kwargs := ⟨none, none, none⟩

/-- The one HTTP request a single `session.request` call puts on the wire:
method, `base_url + endpoint`, the headers sent, query parameters (encoded
by the transport), the serialized body bytes, and the timeout applied. -/
structure PreparedRequest where
  method : String
  url : String
  headers : List (String × String)
  params : Option (List (String × Int))
  body : Option String
  timeout : ℚ
deriving DecidableEq, Repr

/-- Build the wire request for `self.session.request(method, url,
timeout=Config.RESPONSE_TIMEOUT, **kwargs)` with `url = base_url + endpoint`
(`_make_request`, lines 21 and 25). A string `data=` body is sent as-is with
the session headers; a `json=` body is serialized by the transport with
`json.dumps` and — per the `requests` library — a `Content-Type:
application/json` header is added when the session headers lack one; with
neither, no body is sent. -/
def prepareRequest (c : APIClient) (method endpoint : String) (kw : Kwargs) : PreparedRequest :=
  let url := c.base_url ++ endpoint
  match kw.data, kw.json with
  | some s, _ =>
      ⟨method, url, c.headers, kw.params, some s, Config.RESPONSE_TIMEOUT⟩
  | none, some j =>
      let hs := if containsKey c.headers "Content-Type" then c.headers
                else dictUpdate c.headers "Content-Type" "application/json"
      ⟨method, url, hs, kw.params, some (Json.dumps j), Config.RESPONSE_TIMEOUT⟩
  | none, none =>
      ⟨method, url, c.headers, kw.params, none, Config.RESPONSE_TIMEOUT⟩

/-! ## Construction (`APIClient.__init__` and the derived clients) -/

/-- `APIClient.__init__(base_url)`: bind the base URL and merge the two
default headers into the (repository-managed) session header mapping. The
second component records the network requests issued during construction:
the constructor performs none. -/
def constructAPIClient (base_url : String) : APIClient × List PreparedRequest :=
  (⟨base_url,
    dictUpdate (dictUpdate [] "Content-Type" "application/json") "Accept" "application/json"⟩,
   [])

/-- `JSONPlaceholderClient.__init__()`: the base constructor at
`Config.JSONPLACEHOLDER_BASE_URL`. -/
def constructJSONPlaceholderClient : APIClient × List PreparedRequest :=
  constructAPIClient Config.JSONPLACEHOLDER_BASE_URL

/-- `ReqResClient.__init__()`: the base constructor at
`Config.REQRES_BASE_URL`, then `headers.clear()` and an update leaving only
`Accept`. No network request is issued. -/
def constructReqResClient : APIClient × List PreparedRequest :=
  let p := constructAPIClient Config.REQRES_BASE_URL
  (⟨p.1.base_url, dictUpdate [] "Accept" "application/json"⟩, p.2)

/-- A constructed base-flavored client (used by concrete instances below). -/
def jsonPlaceholderClient : APIClient := constructJSONPlaceholderClient.1

/-- A constructed ReqRes client. -/
def reqResClient : APIClient := constructReqResClient.1

/-! ## The instrumented request (`_make_request`) and the transport oracle -/

/-- One outcome of a transport send attempt: either a response with a status
code (any code — the client never inspects it), or a
`requests.exceptions.RequestException` (timeout, connection refused, DNS
failure) carrying its rendered cause `str(e)`. -/
inductive TransportOutcome where
  | success (status_code : Nat)
  | failure (cause : String)
deriving DecidableEq, Repr

/-- The single error kind the client surfaces (the spec's `TransportError`):
the wrapped exception `Exception(f"Request failed: {str(e)}")` raised at
line 30. -/
structure TransportError where
  message : String
deriving DecidableEq, Repr

/-- A response as the caller sees it: the transport's status code plus the
`response_time_ms` attribute the client attaches (absent = `none` on a raw
transport response, set exactly once by `_make_request`). -/
structure HTTPResponse where
  status_code : Nat
  response_time_ms : Option ℚ
deriving DecidableEq, Repr

/-- Floor of a rational, computed from its normalized fraction. -/
def ratFloor (q : ℚ) : ℤ := Int.fdiv q.num q.den

/-- Round-half-to-even to the nearest integer, as Python's `round`. -/
def roundHalfEven (q : ℚ) : ℤ :=
  if q - (ratFloor q : ℚ) < 1/2 then ratFloor q
  else if 1/2 < q - (ratFloor q : ℚ) then ratFloor q + 1
  else if ratFloor q % 2 = 0 then ratFloor q else ratFloor q + 1

/-- Python `round(x, 2)`: round-half-to-even at two decimal places. -/
def pyRound2 (q : ℚ) : ℚ := (roundHalfEven (q * 100) : ℚ) / 100

/-- The timing-and-error-handling core of `_make_request` (lines 22-30),
given the transport outcome of the single send attempt and the two
`time.time()` readings `start_time` (taken immediately before the send) and
`end_time` (taken after the full send-and-receive): on success the response
is returned with `response_time_ms = round((end_time - start_time) * 1000,
2)`; a transport exception is wrapped as `Request failed: {str(e)}` and
raised. No other outcome exists and no retry occurs. -/
def runRequest (outcome : TransportOutcome) (start_time end_time : ℚ) :
    Except TransportError HTTPResponse :=
  match outcome with
  | .success status => .ok ⟨status, some (pyRound2 ((end_time - start_time) * 1000))⟩
  | .failure cause => .error ⟨"Request failed: " ++ cause⟩

/-- `_make_request` against a script of transport outcomes (one per send
attempt, consumed in order): the call consumes exactly the head outcome and
returns the rest untouched — there is no retry loop in the source. `none`
when the script is empty. -/
def runRequestScript (script : List TransportOutcome) (start_time end_time : ℚ) :
    Option (Except TransportError HTTPResponse × List TransportOutcome) :=
  match script with
  | [] => none
  | o :: rest => some (runRequest o start_time end_time, rest)

/-- The request-building half of `_make_request`: the method reads
`self.base_url` and the session headers but assigns to neither, so the
client state it returns is the one it received. -/
def APIClient.make_request (c : APIClient) (method endpoint : String) (kw : Kwargs) :
    APIClient × PreparedRequest :=
  (c, prepareRequest c method endpoint kw)

/-- A whole call through `_make_request`: the (unchanged) client state
paired with the call's result for a given transport outcome and clock
readings. -/
def APIClient.call (c : APIClient) (method endpoint : String) (kw : Kwargs)
    (outcome : TransportOutcome) (start_time end_time : ℚ) :
    APIClient × Except TransportError HTTPResponse :=
  ((APIClient.make_request c method endpoint kw).1, runRequest outcome start_time end_time)

/-! ## Verb methods -/

/-- `get(endpoint, params)`. -/
def APIClient.get (c : APIClient) (endpoint : String) (params : Option (List (String × Int))) :
    APIClient × PreparedRequest :=
  APIClient.make_request c "GET" endpoint ⟨params, none, none⟩

/-- `json.dumps(data) if data else None` (the body expression shared by
`post`, `put` and `patch`). -/
def serializeIfTruthy (data : Option Json) : Option String :=
  match data with
  | none => none
  | some j => if Json.truthy j then some (Json.dumps j) else none

/-- `post(endpoint, data)`. -/
def APIClient.post (c : APIClient) (endpoint : String) (data : Option Json) :
    APIClient × PreparedRequest :=
  APIClient.make_request c "POST" endpoint ⟨none, serializeIfTruthy data, none⟩

/-- `put(endpoint, data)`. -/
def APIClient.put (c : APIClient) (endpoint : String) (data : Option Json) :
    APIClient × PreparedRequest :=
  APIClient.make_request c "PUT" endpoint ⟨none, serializeIfTruthy data, none⟩

/-- `patch(endpoint, data)`. -/
def APIClient.patch (c : APIClient) (endpoint : String) (data : Option Json) :
    APIClient × PreparedRequest :=
  APIClient.make_request c "PATCH" endpoint ⟨none, serializeIfTruthy data, none⟩

/-- `delete(endpoint)`. -/
def APIClient.delete (c : APIClient) (endpoint : String) :
    APIClient × PreparedRequest :=
  APIClient.make_request c "DELETE" endpoint Kwargs.empty

/-! ## Auth-token mutation -/

/-- `set_auth_token(token)`: merge `Authorization: Bearer <token>` into the
session headers. -/
def APIClient.set_auth_token (c : APIClient) (token : String) : APIClient :=
  ⟨c.base_url, dictUpdate c.headers "Authorization" ("Bearer " ++ token)⟩

/-- `remove_auth_token()`: delete the `Authorization` entry if present,
otherwise leave the headers untouched. -/
def APIClient.remove_auth_token (c : APIClient) : APIClient :=
  if containsKey c.headers "Authorization" then
    ⟨c.base_url, dictDelete c.headers "Authorization"⟩
  else c

/-! ## Per-service convenience methods -/

/-- `JSONPlaceholderClient.get_all_posts()`. -/
def JSONPlaceholderClient.get_all_posts (c : APIClient) : APIClient × PreparedRequest :=
  APIClient.get c "/posts" none

/-- `JSONPlaceholderClient.get_post(post_id)`. -/
def JSONPlaceholderClient.get_post (c : APIClient) (post_id : Int) : APIClient × PreparedRequest :=
  APIClient.get c ("/posts/" ++ toString post_id) none

/-- `JSONPlaceholderClient.create_post(post_data)`. -/
def JSONPlaceholderClient.create_post (c : APIClient) (post_data : Json) :
    APIClient × PreparedRequest :=
  APIClient.post c "/posts" (some post_data)

/-- `JSONPlaceholderClient.update_post(post_id, post_data)`. -/
def JSONPlaceholderClient.update_post (c : APIClient) (post_id : Int) (post_data : Json) :
    APIClient × PreparedRequest :=
  APIClient.put c ("/posts/" ++ toString post_id) (some post_data)

/-- `JSONPlaceholderClient.delete_post(post_id)`. -/
def JSONPlaceholderClient.delete_post (c : APIClient) (post_id : Int) :
    APIClient × PreparedRequest :=
  APIClient.delete c ("/posts/" ++ toString post_id)

/-- `JSONPlaceholderClient.get_post_comments(post_id)`. -/
def JSONPlaceholderClient.get_post_comments (c : APIClient) (post_id : Int) :
    APIClient × PreparedRequest :=
  APIClient.get c ("/posts/" ++ toString post_id ++ "/comments") none

/-- `JSONPlaceholderClient.get_posts_by_user(user_id)`. -/
def JSONPlaceholderClient.get_posts_by_user (c : APIClient) (user_id : Int) :
    APIClient × PreparedRequest :=
  APIClient.get c "/posts" (some [("userId", user_id)])

/-- `ReqResClient.get_users(page)`. -/
def ReqResClient.get_users (c : APIClient) (page : Int) : APIClient × PreparedRequest :=
  APIClient.get c "/users" (some [("page", page)])

/-- `ReqResClient.get_user(user_id)`. -/
def ReqResClient.get_user (c : APIClient) (user_id : Int) : APIClient × PreparedRequest :=
  APIClient.get c ("/users/" ++ toString user_id) none

/-- `ReqResClient.create_user(user_data)`: delegates to `_make_request` with
a structured `json=` body. -/
def ReqResClient.create_user (c : APIClient) (user_data : Json) : APIClient × PreparedRequest :=
  APIClient.make_request c "POST" "/users" ⟨none, none, some user_data⟩

/-- `ReqResClient.update_user(user_id, user_data)`. -/
def ReqResClient.update_user (c : APIClient) (user_id : Int) (user_data : Json) :
    APIClient × PreparedRequest :=
  APIClient.make_request c "PUT" ("/users/" ++ toString user_id) ⟨none, none, some user_data⟩

/-- `ReqResClient.delete_user(user_id)`. -/
def ReqResClient.delete_user (c : APIClient) (user_id : Int) : APIClient × PreparedRequest :=
  APIClient.delete c ("/users/" ++ toString user_id)

/-- `ReqResClient.login(credentials)`. -/
def ReqResClient.login (c : APIClient) (credentials : Json) : APIClient × PreparedRequest :=
  APIClient.make_request c "POST" "/login" ⟨none, none, some credentials⟩

/-- `ReqResClient.register(user_data)`. -/
def ReqResClient.register (c : APIClient) (user_data : Json) : APIClient × PreparedRequest :=
  APIClient.make_request c "POST" "/register" ⟨none, none, some user_data⟩

/-! ## Helper lemmas on header mappings and rounding -/

/-- Updating a key makes lookup of that key return the new value. -/
theorem lookupH_dictUpdate_self (hs : List (String × String)) (k v : String) :
    lookupH (dictUpdate hs k v) k = some v := by
  induction hs with
  | nil => simp [dictUpdate, lookupH]
  | cons p rest ih =>
      obtain ⟨k0, v0⟩ := p
      by_cases h : k0 = k
      · simp [dictUpdate, h, lookupH]
      · simp [dictUpdate, h, lookupH, ih]

/-- Updating one key leaves lookup of any other key unchanged. -/
theorem lookupH_dictUpdate_ne (hs : List (String × String)) (k v key : String)
    (hne : k ≠ key) :
    lookupH (dictUpdate hs k v) key = lookupH hs key := by
  induction hs with
  | nil => simp [dictUpdate, lookupH, hne]
  | cons p rest ih =>
      obtain ⟨k0, v0⟩ := p
      by_cases h : k0 = k
      · subst h
        simp [dictUpdate, lookupH, hne]
      · simp [dictUpdate, h, lookupH, ih]

/-- Deleting a key makes lookup of that key return nothing. -/
theorem lookupH_dictDelete_self (hs : List (String × String)) (k : String) :
    lookupH (dictDelete hs k) k = none := by
  induction hs with
  | nil => simp [dictDelete, lookupH]
  | cons p rest ih =>
      obtain ⟨k0, v0⟩ := p
      by_cases h : k0 = k
      · simp [dictDelete, h, ih]
      · simp [dictDelete, h, lookupH, ih]

/-- An absent key looks up to nothing. -/
theorem lookupH_eq_none_of_not_containsKey (hs : List (String × String)) (k : String)
    (h : containsKey hs k = false) :
    lookupH hs k = none := by
  cases hl : lookupH hs k with
  | none => rfl
  | some v => simp [containsKey, hl] at h

/-- Request preparation only ever touches the `Content-Type` header: lookup
of any other key in the sent headers agrees with the session headers. -/
theorem lookupH_prepareRequest (c : APIClient) (method endpoint : String) (kw : Kwargs)
    (key : String) (hkey : key ≠ "Content-Type") :
    lookupH (prepareRequest c method endpoint kw).headers key = lookupH c.headers key := by
  obtain ⟨p, d, j⟩ := kw
  cases d with
  | some s => rfl
  | none =>
      cases j with
      | none => rfl
      | some jv =>
          show lookupH (if containsKey c.headers "Content-Type" then c.headers
                        else dictUpdate c.headers "Content-Type" "application/json") key =
               lookupH c.headers key
          split_ifs with h
          · rfl
          · exact lookupH_dictUpdate_ne c.headers "Content-Type" "application/json" key
              (fun he => hkey he.symm)

/-- The prepared URL is always the base URL concatenated with the endpoint. -/
theorem prepareRequest_url (c : APIClient) (method endpoint : String) (kw : Kwargs) :
    (prepareRequest c method endpoint kw).url = c.base_url ++ endpoint := by
  obtain ⟨p, d, j⟩ := kw
  cases d <;> cases j <;> rfl

/-- The prepared timeout is always the configured `RESPONSE_TIMEOUT`. -/
theorem prepareRequest_timeout (c : APIClient) (method endpoint : String) (kw : Kwargs) :
    (prepareRequest c method endpoint kw).timeout = Config.RESPONSE_TIMEOUT := by
  obtain ⟨p, d, j⟩ := kw
  cases d <;> cases j <;> rfl

/-- Rounding half-to-even keeps a nonnegative rational nonnegative. -/
theorem roundHalfEven_nonneg (q : ℚ) (h : 0 ≤ q) : 0 ≤ roundHalfEven q := by
  have hf : 0 ≤ ratFloor q :=
    Int.fdiv_nonneg (Rat.num_nonneg.mpr h) (Int.natCast_nonneg _)
  unfold roundHalfEven
  split_ifs <;> omega

/-- Python `round(x, 2)` keeps a nonnegative rational nonnegative. -/
theorem pyRound2_nonneg (q : ℚ) (h : 0 ≤ q) : 0 ≤ pyRound2 q := by
  have h1 : 0 ≤ roundHalfEven (q * 100) := roundHalfEven_nonneg _ (by positivity)
  unfold pyRound2
  exact div_nonneg (by exact_mod_cast h1) (by norm_num)

/-- `ratFloor` agrees with the mathematical floor. -/
theorem ratFloor_eq_floor (q : ℚ) : ratFloor q = ⌊q⌋ := by
  rw [Rat.floor_def]
  exact Int.fdiv_eq_ediv _ (Int.natCast_nonneg _)

/-! ## Claim theorems -/

/-- Claim C1: when the underlying transport send fails, exactly one send
attempt is consumed from the transport script (the rest is returned
untouched — no retry), the call fails with exactly one `TransportError`
whose message carries the underlying cause (`Request failed: {str(e)}`),
the low-level exception never leaks unwrapped, and every call ends in
either a response value or a `TransportError` — no third outcome. -/
theorem claim_C1_transport_failure (cause : String) (rest : List TransportOutcome)
    (start_time end_time : ℚ) :
    runRequestScript (TransportOutcome.failure cause :: rest) start_time end_time =
      some (Except.error ⟨"Request failed: " ++ cause⟩, rest)
    ∧ ∀ o : TransportOutcome,
        (∃ r : HTTPResponse, runRequest o start_time end_time = Except.ok r) ∨
        (∃ e : TransportError, runRequest o start_time end_time = Except.error e) := by
  refine ⟨rfl, ?_⟩
  intro o
  cases o with
  | success s => exact Or.inl ⟨_, rfl⟩
  | failure m => exact Or.inr ⟨_, rfl⟩

/-- Claim C2 (counterexample): at the falsy data value `{}` the two request
paths differ — `post` transmits no body while the structured-JSON variant
transmits the serialized empty object — so the bodies are not identical for
every data value. -/
theorem claim_C2_counterexample :
    (APIClient.post jsonPlaceholderClient "/users" (some (Json.obj []))).2.body ≠
      (APIClient.make_request jsonPlaceholderClient "POST" "/users"
        ⟨none, none, some (Json.obj [])⟩).2.body := by
  decide

/-- Claim C2 (amended): for every truthy `data` value (in particular every
non-empty dict), `post(endpoint, data)` and the structured-JSON variant
`request("POST", endpoint, json=data)` produce identical serialized request
bodies. -/
theorem claim_C2_bodies_eq (c : APIClient) (endpoint : String) (j : Json)
    (h : Json.truthy j = true) :
    (APIClient.post c endpoint (some j)).2.body =
      (APIClient.make_request c "POST" endpoint ⟨none, none, some j⟩).2.body := by
  simp [APIClient.post, APIClient.make_request, prepareRequest, serializeIfTruthy, h]

/-- Witness for the amended claim C2 at the concrete data
`{"name": "Ada"}`. -/
theorem claim_C2_bodies_eq_witness :
    Json.truthy (Json.obj [("name", Json.str "Ada")]) = true ∧
    (APIClient.post reqResClient "/users" (some (Json.obj [("name", Json.str "Ada")]))).2.body =
      (APIClient.make_request reqResClient "POST" "/users"
        ⟨none, none, some (Json.obj [("name", Json.str "Ada")])⟩).2.body :=
  ⟨rfl, claim_C2_bodies_eq reqResClient "/users" (Json.obj [("name", Json.str "Ada")]) rfl⟩

/-- Claim C3 (counterexample): the stored measurement is
`round((end_time - start_time) * 1000, 2)`, which is not equal to the raw
wall-clock difference: with readings 0 and 1/1000000 seconds the response
carries 0, yet the elapsed time is 1/1000 ms (= 1/1000000 s), nonzero. -/
theorem claim_C3_counterexample :
    runRequest (TransportOutcome.success 200) 0 (1/1000000) =
      Except.ok ⟨200, some 0⟩
    ∧ ((1/1000000 : ℚ) - 0) * 1000 ≠ 0
    ∧ ((1/1000000 : ℚ) - 0) ≠ 0 := by
  have hf : pyRound2 (((1/1000000 : ℚ) - 0) * 1000) = 0 := by
    have h1 : (((1/1000000 : ℚ) - 0) * 1000) * 100 = 1/10 := by norm_num
    unfold pyRound2 roundHalfEven
    rw [h1, ratFloor_eq_floor]
    norm_num
  refine ⟨?_, by norm_num, by norm_num⟩
  simp only [runRequest]
  rw [hf]

/-- Claim C3 (amended): on every successful call the returned response
carries `response_time_ms`, set exactly once to the wall-clock difference
`end_time - start_time` converted to milliseconds and rounded half-to-even
at two decimal places, and it is nonnegative whenever the clock does not go
backwards. -/
theorem claim_C3_elapsed (status : Nat) (start_time end_time : ℚ)
    (h : start_time ≤ end_time) :
    runRequest (TransportOutcome.success status) start_time end_time =
      Except.ok ⟨status, some (pyRound2 ((end_time - start_time) * 1000))⟩
    ∧ 0 ≤ pyRound2 ((end_time - start_time) * 1000) := by
  refine ⟨rfl, pyRound2_nonneg _ ?_⟩
  have h0 : (0:ℚ) ≤ end_time - start_time := sub_nonneg.mpr h
  positivity

/-- Witness for the amended claim C3 at readings 0 and 1. -/
theorem claim_C3_elapsed_witness :
    (0:ℚ) ≤ 1 ∧
    (runRequest (TransportOutcome.success 200) 0 1 =
      Except.ok ⟨200, some (pyRound2 ((1 - 0) * 1000))⟩
     ∧ 0 ≤ pyRound2 (((1:ℚ) - 0) * 1000)) :=
  ⟨by norm_num, claim_C3_elapsed 200 0 1 (by norm_num)⟩

/-- Claim C4: whatever status code the transport returns — including every
4xx/5xx — a call whose transport succeeds returns the response as a normal
value carrying that status; the client never turns a status code into an
error. -/
theorem claim_C4_status_passthrough (status : Nat) (start_time end_time : ℚ) :
    ∃ resp : HTTPResponse,
      runRequest (TransportOutcome.success status) start_time end_time = Except.ok resp ∧
      resp.status_code = status :=
  ⟨_, rfl, rfl⟩

/-- Claim C5: after `set_auth_token(token)` every subsequent request is sent
with an `Authorization: Bearer <token>` header; after `remove_auth_token()`
every subsequent request is sent with no `Authorization` header; and
`remove_auth_token()` on a client without that header leaves the client
unchanged. -/
theorem claim_C5_auth_token (c : APIClient) (token method endpoint : String) (kw : Kwargs) :
    lookupH (prepareRequest (APIClient.set_auth_token c token) method endpoint kw).headers
        "Authorization" = some ("Bearer " ++ token)
    ∧ lookupH (prepareRequest (APIClient.remove_auth_token c) method endpoint kw).headers
        "Authorization" = none
    ∧ (containsKey c.headers "Authorization" = false → APIClient.remove_auth_token c = c) := by
  refine ⟨?_, ?_, ?_⟩
  · rw [lookupH_prepareRequest _ _ _ _ _ (by decide)]
    exact lookupH_dictUpdate_self c.headers "Authorization" ("Bearer " ++ token)
  · rw [lookupH_prepareRequest _ _ _ _ _ (by decide)]
    unfold APIClient.remove_auth_token
    split_ifs with h
    · exact lookupH_dictDelete_self c.headers "Authorization"
    · exact lookupH_eq_none_of_not_containsKey c.headers "Authorization"
        (Bool.not_eq_true _ ▸ (by simpa using h))
  · intro h
    unfold APIClient.remove_auth_token
    simp [h]

/-- Witness for claim C5: a fresh JSONPlaceholder client carries no
`Authorization` header, removal is a no-op on it, and after setting the
token `tok` a GET sends `Authorization: Bearer tok`. -/
theorem claim_C5_auth_token_witness :
    lookupH (prepareRequest (APIClient.set_auth_token jsonPlaceholderClient "tok") "GET" "/posts"
        Kwargs.empty).headers "Authorization" = some "Bearer tok"
    ∧ containsKey jsonPlaceholderClient.headers "Authorization" = false
    ∧ APIClient.remove_auth_token jsonPlaceholderClient = jsonPlaceholderClient :=
  ⟨(claim_C5_auth_token jsonPlaceholderClient "tok" "GET" "/posts" Kwargs.empty).1,
   by decide,
   (claim_C5_auth_token jsonPlaceholderClient "tok" "GET" "/posts" Kwargs.empty).2.2 (by decide)⟩

/-- Claim C6: constructing the base client issues zero network requests and
yields exactly the default header set `Content-Type: application/json`,
`Accept: application/json`; constructing the ReqRes client overrides that
set entirely, yielding only `Accept: application/json`, and likewise issues
no network request. -/
theorem claim_C6_construction (base_url : String) :
    constructAPIClient base_url =
      (⟨base_url, [("Content-Type", "application/json"), ("Accept", "application/json")]⟩, [])
    ∧ constructReqResClient =
      (⟨Config.REQRES_BASE_URL, [("Accept", "application/json")]⟩, []) :=
  ⟨rfl, rfl⟩

/-- Claim C7: every request is sent to exactly `base_url ++ endpoint` with
the configured `RESPONSE_TIMEOUT` of 5 seconds; concretely, a client bound
to `https://example.test/api` sends `get("/widgets/7")` as a GET to
`https://example.test/api/widgets/7` with the two default headers and no
body. -/
theorem claim_C7_url_and_timeout (c : APIClient) (method endpoint : String) (kw : Kwargs) :
    (prepareRequest c method endpoint kw).url = c.base_url ++ endpoint
    ∧ (prepareRequest c method endpoint kw).timeout = Config.RESPONSE_TIMEOUT
    ∧ Config.RESPONSE_TIMEOUT = 5
    ∧ (APIClient.get (constructAPIClient "https://example.test/api").1 "/widgets/7" none).2 =
        ⟨"GET", "https://example.test/api/widgets/7",
         [("Content-Type", "application/json"), ("Accept", "application/json")],
         none, none, Config.RESPONSE_TIMEOUT⟩ :=
  ⟨prepareRequest_url c method endpoint kw, prepareRequest_timeout c method endpoint kw,
   rfl, rfl⟩

/-- Claim C8 (counterexample): the create sugar method wrapping the `/users`
POST (`ReqResClient.create_user`, which sends `json=`) is not byte-for-byte
equivalent on the wire to calling `post("/users", {"name": "Ada"})`
directly on the ReqRes client: the `json=` path adds a `Content-Type:
application/json` header that the direct `post` does not send. -/
theorem claim_C8_counterexample :
    (ReqResClient.create_user reqResClient (Json.obj [("name", Json.str "Ada")])).2 ≠
      (APIClient.post reqResClient "/users" (some (Json.obj [("name", Json.str "Ada")]))).2
    ∧ lookupH (ReqResClient.create_user reqResClient
        (Json.obj [("name", Json.str "Ada")])).2.headers "Content-Type" =
        some "application/json"
    ∧ lookupH (APIClient.post reqResClient "/users"
        (some (Json.obj [("name", Json.str "Ada")]))).2.headers "Content-Type" = none := by
  refine ⟨?_, by decide, by decide⟩
  intro h
  have := congrArg (fun r => lookupH r.headers "Content-Type") h
  simp only at this
  revert this
  decide

/-- Claim C8 (amended): every named convenience operation is a one-line
delegation to the generic verb methods or the generic request method with a
fixed endpoint template and no extra logic or state, and the `/users`
create sugar agrees with the direct `post` on method, URL, body bytes and
timeout — differing only in the `Content-Type: application/json` header the
structured-JSON path adds on the ReqRes client. -/
theorem claim_C8_delegation (c : APIClient) (post_id user_id page : Int) (d : Json) :
    JSONPlaceholderClient.get_all_posts c = APIClient.get c "/posts" none
    ∧ JSONPlaceholderClient.get_post c post_id =
        APIClient.get c ("/posts/" ++ toString post_id) none
    ∧ JSONPlaceholderClient.create_post c d = APIClient.post c "/posts" (some d)
    ∧ JSONPlaceholderClient.update_post c post_id d =
        APIClient.put c ("/posts/" ++ toString post_id) (some d)
    ∧ JSONPlaceholderClient.delete_post c post_id =
        APIClient.delete c ("/posts/" ++ toString post_id)
    ∧ ReqResClient.get_users c page = APIClient.get c "/users" (some [("page", page)])
    ∧ ReqResClient.get_user c user_id =
        APIClient.get c ("/users/" ++ toString user_id) none
    ∧ ReqResClient.create_user c d =
        APIClient.make_request c "POST" "/users" ⟨none, none, some d⟩
    ∧ ((ReqResClient.create_user reqResClient (Json.obj [("name", Json.str "Ada")])).2.method =
        (APIClient.post reqResClient "/users"
          (some (Json.obj [("name", Json.str "Ada")]))).2.method
       ∧ (ReqResClient.create_user reqResClient (Json.obj [("name", Json.str "Ada")])).2.url =
        (APIClient.post reqResClient "/users"
          (some (Json.obj [("name", Json.str "Ada")]))).2.url
       ∧ (ReqResClient.create_user reqResClient (Json.obj [("name", Json.str "Ada")])).2.body =
        (APIClient.post reqResClient "/users"
          (some (Json.obj [("name", Json.str "Ada")]))).2.body
       ∧ (ReqResClient.create_user reqResClient (Json.obj [("name", Json.str "Ada")])).2.timeout =
        (APIClient.post reqResClient "/users"
          (some (Json.obj [("name", Json.str "Ada")]))).2.timeout
       ∧ (ReqResClient.create_user reqResClient (Json.obj [("name", Json.str "Ada")])).2.headers =
        dictUpdate (APIClient.post reqResClient "/users"
          (some (Json.obj [("name", Json.str "Ada")]))).2.headers
          "Content-Type" "application/json") :=
  ⟨rfl, rfl, rfl, rfl, rfl, rfl, rfl, rfl, by decide, rfl, by decide, rfl, by decide⟩

/-- Claim C9: every falsy body value — the empty dict as well as `None` —
makes `post`, `put` and `patch` transmit exactly the request they would
transmit with no data at all, and the body is serialized to JSON text
exactly when the supplied data value is truthy. -/
theorem claim_C9_falsy_body (c : APIClient) (endpoint : String) :
    APIClient.post c endpoint (some (Json.obj [])) = APIClient.post c endpoint none
    ∧ APIClient.put c endpoint (some (Json.obj [])) = APIClient.put c endpoint none
    ∧ APIClient.patch c endpoint (some (Json.obj [])) = APIClient.patch c endpoint none
    ∧ (∀ j : Json, Json.truthy j = true →
        (APIClient.post c endpoint (some j)).2.body = some (Json.dumps j))
    ∧ (∀ j : Json, Json.truthy j = false →
        (APIClient.post c endpoint (some j)).2.body = none) := by
  refine ⟨rfl, rfl, rfl, ?_, ?_⟩
  · intro j h
    simp [APIClient.post, APIClient.make_request, prepareRequest, serializeIfTruthy, h]
  · intro j h
    simp [APIClient.post, APIClient.make_request, prepareRequest, serializeIfTruthy, h]

/-- Witness for claim C9 at the canned `TEST_POST_DATA` body (truthy) and
the empty dict (falsy). -/
theorem claim_C9_falsy_body_witness :
    Json.truthy Config.TEST_POST_DATA = true
    ∧ (APIClient.post jsonPlaceholderClient "/posts" (some Config.TEST_POST_DATA)).2.body =
        some (Json.dumps Config.TEST_POST_DATA)
    ∧ Json.truthy (Json.obj []) = false
    ∧ (APIClient.post jsonPlaceholderClient "/posts" (some (Json.obj []))).2.body = none :=
  ⟨rfl,
   (claim_C9_falsy_body jsonPlaceholderClient "/posts").2.2.2.1 Config.TEST_POST_DATA rfl,
   rfl,
   (claim_C9_falsy_body jsonPlaceholderClient "/posts").2.2.2.2 (Json.obj []) rfl⟩

/-- Claim C10: no verb or generic call mutates the client — the full call
returns the client state it received, whatever the transport outcome — and
the only header mutators are the token operations: `set_auth_token` leaves
the base URL and every non-`Authorization` header entry (in particular
`Content-Type` and `Accept`) unchanged, and `remove_auth_token` leaves the
base URL unchanged. -/
theorem claim_C10_frame (c : APIClient) (token key method endpoint : String) (kw : Kwargs)
    (params : Option (List (String × Int))) (data : Option Json)
    (outcome : TransportOutcome) (start_time end_time : ℚ)
    (hkey : key ≠ "Authorization") :
    (APIClient.call c method endpoint kw outcome start_time end_time).1 = c
    ∧ (APIClient.get c endpoint params).1 = c
    ∧ (APIClient.post c endpoint data).1 = c
    ∧ (APIClient.put c endpoint data).1 = c
    ∧ (APIClient.patch c endpoint data).1 = c
    ∧ (APIClient.delete c endpoint).1 = c
    ∧ (APIClient.set_auth_token c token).base_url = c.base_url
    ∧ lookupH (APIClient.set_auth_token c token).headers key = lookupH c.headers key
    ∧ (APIClient.remove_auth_token c).base_url = c.base_url := by
  refine ⟨rfl, rfl, rfl, rfl, rfl, rfl, rfl, ?_, ?_⟩
  · exact lookupH_dictUpdate_ne c.headers "Authorization" ("Bearer " ++ token) key
      (fun he => hkey he.symm)
  · unfold APIClient.remove_auth_token
    split_ifs <;> rfl

/-- Witness for claim C10 at the fresh JSONPlaceholder client, key
`Content-Type` and a GET call. -/
theorem claim_C10_frame_witness :
    (APIClient.call jsonPlaceholderClient "GET" "/posts" Kwargs.empty
        (TransportOutcome.success 200) 0 1).1 = jsonPlaceholderClient
    ∧ lookupH (APIClient.set_auth_token jsonPlaceholderClient "tok").headers "Content-Type" =
        lookupH jsonPlaceholderClient.headers "Content-Type" :=
  ⟨(claim_C10_frame jsonPlaceholderClient "tok" "Content-Type" "GET" "/posts" Kwargs.empty
      none none (TransportOutcome.success 200) 0 1 (by decide)).1,
   (claim_C10_frame jsonPlaceholderClient "tok" "Content-Type" "GET" "/posts" Kwargs.empty
      none none (TransportOutcome.success 200) 0 1 (by decide)).2.2.2.2.2.2.2.1⟩
